import Mathlib

/-!
Shallow embedding of the SecuBot rule engine
(`app/engines/rule_engine/`): condition-evaluator operators, the point
calculator, the time evaluator, reference resolution, the badge
evaluator, the side-effect executor, the rule loader cache and the
`process_event` orchestrator.  Python values flowing through the
condition language are modelled by the inductive `Val`; Python `None`
is `Val.none`, numbers (int/float) are rationals, datetimes are
modelled as integer second counts.  Database and network effects are
abstracted as explicit function parameters; everything else follows
the Python source line by line.
-/

namespace SecuBot

/-! ## String helpers

Structural models of the Python string methods the engine uses
(`strip`, `upper`, `lower`, `split`, `startswith`, `endswith`, `int()`),
written over `List Char` so they compute by structural recursion. -/

/-- Python `s.strip()`: drop whitespace from both ends. -/
def strStrip (s : String) : String :=
  String.mk (((s.toList.dropWhile Char.isWhitespace).reverse.dropWhile
    Char.isWhitespace).reverse)

/-- Python `s.upper()` (ASCII). -/
def strUpper (s : String) : String :=
  String.mk (s.toList.map Char.toUpper)

/-- Python `s.lower()` (ASCII). -/
def strLower (s : String) : String :=
  String.mk (s.toList.map Char.toLower)

/-- Python `s.split(sep)` on a single-character separator (character
list level): splitting the empty string yields one empty field. -/
def splitOnChar (sep : Char) : List Char → List (List Char)
  | [] => [[]]
  | c :: rest =>
    let r := splitOnChar sep rest
    if c == sep then [] :: r
    else
      match r with
      | [] => [[c]]
      | h :: t => (c :: h) :: t

/-- Python `s.split(sep)` on a single-character separator. -/
def strSplitOn (sep : Char) (s : String) : List String :=
  (splitOnChar sep s.toList).map String.mk

/-- Python `s.startswith(pre)`. -/
def strStartsWith (s pre : String) : Bool :=
  pre.toList.isPrefixOf s.toList

/-- Python `s.endswith(suf)`. -/
def strEndsWith (s suf : String) : Bool :=
  suf.toList.reverse.isPrefixOf s.toList.reverse

/-- Decimal digits to a natural number (assumes all digits). -/
def charsToNat (cs : List Char) : Nat :=
  cs.foldl (fun acc c => acc * 10 + (c.toNat - 48)) 0

/-- Python `int(s)` on an optionally signed decimal string; anything
else raises `ValueError`, modelled as `Option.none`. -/
def strToIntQ (s : String) : Option Int :=
  let cs := s.toList
  match cs with
  | [] => Option.none
  | c :: rest =>
    if c == Char.ofNat 45 then
      if !rest.isEmpty && rest.all Char.isDigit then
        some (-(charsToNat rest : Int))
      else Option.none
    else if cs.all Char.isDigit then some (charsToNat cs : Int)
    else Option.none

/-- Python values appearing in condition evaluation: `None`, numbers
(int/float as rationals), booleans, strings, lists, mapping-style
entities (dict) and attribute-style entities (object with attributes). -/
inductive Val where
  | none : Val
  | num : Rat → Val
  | bool : Bool → Val
  | str : String → Val
  | list : List Val → Val
  | dict : List (String × Val) → Val
  | obj : List (String × Val) → Val
deriving Repr

/-- Python `x is None`. -/
def Val.isNone : Val → Bool
  | .none => true
  | _ => false

/-- Numeric view used by Python comparisons: booleans coerce to 0/1. -/
def Val.asNum : Val → Option Rat
  | .num q => some q
  | .bool b => some (if b then 1 else 0)
  | _ => Option.none

mutual

/-- Python `==` on the modelled values (bool/number cross-equality as in
Python, e.g. `True == 1`); lists compare elementwise; dict equality is
modelled on the entry list in order; attribute objects are compared
structurally; other cross-type comparisons are unequal. -/
def pyEq (a b : Val) : Bool :=
  match a, b with
  | .none, .none => true
  | .num x, .num y => x == y
  | .num x, .bool c => x == (if c then 1 else 0)
  | .bool c, .num y => (if c then (1 : Rat) else 0) == y
  | .bool c, .bool d => c == d
  | .str s, .str t => s == t
  | .list xs, .list ys => pyEqList xs ys
  | .dict xs, .dict ys => pyEqPairs xs ys
  | .obj xs, .obj ys => pyEqPairs xs ys
  | _, _ => false

/-- Elementwise Python `==` on lists. -/
def pyEqList (xs ys : List Val) : Bool :=
  match xs, ys with
  | [], [] => true
  | x :: xs, y :: ys => pyEq x y && pyEqList xs ys
  | _, _ => false

/-- Entrywise Python `==` on key/value entry lists. -/
def pyEqPairs (xs ys : List (String × Val)) : Bool :=
  match xs, ys with
  | [], [] => true
  | (k, v) :: xs, (l, w) :: ys => k == l && pyEq v w && pyEqPairs xs ys
  | _, _ => false

end

/-- Python `<` on the modelled values: numbers (and booleans as numbers)
and strings are ordered; any other pairing raises `TypeError`. -/
def pyLt (a b : Val) : Except String Bool :=
  match a.asNum, b.asNum with
  | some x, some y => .ok (decide (x < y))
  | _, _ =>
    match a, b with
    | .str s, .str t => .ok (decide (s < t))
    | _, _ => .error "TypeError: unorderable types"

/-- Python `<=` on the modelled values. -/
def pyLe (a b : Val) : Except String Bool :=
  match a.asNum, b.asNum with
  | some x, some y => .ok (decide (x ≤ y))
  | _, _ =>
    match a, b with
    | .str s, .str t => .ok (decide (s ≤ t))
    | _, _ => .error "TypeError: unorderable types"

/-- Contiguous-substring test on character lists (Python `sub in s`). -/
def listIsInfix (needle hay : List Char) : Bool :=
  match hay with
  | [] => needle.isEmpty
  | _ :: t => needle.isPrefixOf hay || listIsInfix needle t

/-- Python `left in right`: list membership via `==`, substring test on
strings, key membership on dicts; otherwise `TypeError`. -/
def pyIn (l r : Val) : Except String Bool :=
  match r with
  | .list xs => .ok (xs.any (pyEq l))
  | .str s =>
    match l with
    | .str sub => .ok (listIsInfix sub.toList s.toList)
    | _ => .error "TypeError: not a string"
  | .dict kvs =>
    match l with
    | .str k => .ok (kvs.any (fun kv => kv.1 == k))
    | _ => .error "TypeError: unhashable key"
  | _ => .error "TypeError: argument is not iterable"

/-- `ComparisonOperator._compare_with_none`: with a `None` operand only
`==`/`!=` are meaningful; every other operator returns `False`. -/
def compareWithNone (left : Val) (operator : String) (right : Val) : Bool :=
  if operator == "==" then pyEq left right
  else if operator == "!=" then !pyEq left right
  else false

/-- `ComparisonOperator.compare`: normalises the operator, short-circuits
when either operand is `None`, then dispatches; an unsupported operator
raises `ValueError`. -/
def compare (left : Val) (operator : String) (right : Val) : Except String Bool :=
  let op := strUpper (strStrip operator)
  if left.isNone || right.isNone then
    .ok (compareWithNone left op right)
  else if op == "==" then .ok (pyEq left right)
  else if op == "!=" then .ok (!pyEq left right)
  else if op == "<" then pyLt left right
  else if op == ">" then pyLt right left
  else if op == "<=" then pyLe left right
  else if op == ">=" then pyLe right left
  else if op == "IN" then pyIn left right
  else if op == "NOT IN" then (pyIn left right).map (fun b => !b)
  else .error ("Unsupported operator: " ++ op)

/-! ## Point calculator (`point_calculator.py`) -/

/-- Python `round` with no digits: round half to even, returning an
integer. -/
def pyRound (x : Rat) : Int :=
  let f := ⌊x⌋
  let d := x - (f : Rat)
  if d < 1/2 then f
  else if 1/2 < d then f + 1
  else if f % 2 = 0 then f else f + 1

/-- Python `round(x, 2)`: round half to even at two decimal places. -/
def round2 (x : Rat) : Rat :=
  (pyRound (x * 100) : Rat) / 100

/-- `PointCalculator.__init__(min_points, allow_negative)`. -/
structure PointCalculator where
  min_points : Int
  allow_negative : Bool
deriving DecidableEq, Repr

/-- `PointCalculator.calculate`: multiply, add bonus, subtract penalty,
round, and clamp to `min_points` when negatives are not allowed. -/
def PointCalculator.calculate (c : PointCalculator) (base_points : Int)
    (user_level_multiplier : Rat) (bonus_points penalty_points : Int) : Int :=
  let multiplied_points := (base_points : Rat) * user_level_multiplier
  let final_points := multiplied_points + (bonus_points : Rat) - (penalty_points : Rat)
  let rounded := pyRound final_points
  if ¬ c.allow_negative ∧ rounded < c.min_points then c.min_points else rounded

/-- `PointCalculator.get_level_multiplier`: the fixed level table, with
1.0 for unknown levels. -/
def getLevelMultiplier (user_level : Nat) : Rat :=
  match user_level with
  | 1 => 1
  | 2 => 1
  | 3 => 11/10
  | 4 => 6/5
  | 5 => 3/2
  | _ => 1

/-- `PointCalculator.calculate_from_rule`: applies the level multiplier
to the rule's points. -/
def PointCalculator.calculateFromRule (c : PointCalculator) (rule_points : Int)
    (user_level : Nat) (additional_bonus : Int) : Int :=
  c.calculate rule_points (getLevelMultiplier user_level) additional_bonus 0

/-- `PointCalculator.calculate_user_level`: ascending threshold ladder. -/
def calculateUserLevel (total_points : Int) : Nat :=
  if total_points < 500 then 1
  else if total_points < 1500 then 2
  else if total_points < 4000 then 3
  else if total_points < 10000 then 4
  else 5

/-- One entry of the `PointCalculator.get_level_info` table. -/
structure LevelInfo where
  name : String
  min_points : Int
  max_points : Option Int
deriving DecidableEq, Repr

/-- `PointCalculator.get_level_info`: the fixed level table, defaulting
to level 1 for unknown levels. -/
def getLevelInfo (level : Nat) : LevelInfo :=
  match level with
  | 1 => ⟨"Aprendiz de Seguridad", 0, some 499⟩
  | 2 => ⟨"Vigilante del Código", 500, some 1499⟩
  | 3 => ⟨"Guardián DevSecOps", 1500, some 3999⟩
  | 4 => ⟨"Centinela Élite", 4000, some 9999⟩
  | 5 => ⟨"Maestro de la Seguridad", 10000, Option.none⟩
  | _ => ⟨"Aprendiz de Seguridad", 0, some 499⟩

/-- Return shape of `PointCalculator.calculate_progress_to_next_level`. -/
structure LevelProgress where
  current_level : Nat
  next_level : Option Nat
  points_needed : Int
  progress_percentage : Rat
deriving DecidableEq, Repr

/-- `PointCalculator.calculate_progress_to_next_level`: saturates at the
maximum level, otherwise reports distance and rounded percentage within
the current tier. -/
def calculateProgressToNextLevel (current_points : Int) : LevelProgress :=
  let current_level := calculateUserLevel current_points
  let current_level_info := getLevelInfo current_level
  if current_level = 5 then
    ⟨5, Option.none, 0, 100⟩
  else
    let next_level_info := getLevelInfo (current_level + 1)
    let points_needed := next_level_info.min_points - current_points
    let level_range := current_level_info.max_points.getD 0 - current_level_info.min_points + 1
    let points_in_current_level := current_points - current_level_info.min_points
    let progress_percentage := ((points_in_current_level : Rat) / (level_range : Rat)) * 100
    ⟨current_level, some (current_level + 1), points_needed, round2 progress_percentage⟩

/-! ## Time units and the time evaluator
(`condition_evaluator/parsers.py`, `condition_evaluator/time_evaluator.py`) -/

/-- Python `unit.lower().rstrip("s")`: drop every trailing `s` after
lowercasing. -/
def normalizeUnit (unit : String) : String :=
  String.mk (((strLower unit).toList.reverse.dropWhile (fun c => c == 's')).reverse)

/-- `TimeUnitConverter.UNIT_TO_SECONDS`. -/
def unitToSecondsTable (unit : String) : Option Int :=
  if unit == "second" then some 1
  else if unit == "minute" then some 60
  else if unit == "hour" then some 3600
  else if unit == "day" then some 86400
  else Option.none

/-- `TimeUnitConverter.to_seconds`: normalise the unit (singular or
plural) and multiply; an unsupported unit raises `ValueError`. -/
def toSeconds (value : Int) (unit : String) : Except String Int :=
  match unitToSecondsTable (normalizeUnit unit) with
  | some k => .ok (value * k)
  | Option.none => .error ("Unsupported time unit: " ++ unit)

/-- `TimeEvaluator.evaluate` once the two timestamps of the duration
expression have been resolved (datetimes modelled as integer seconds):
duration in seconds on the left, threshold converted to seconds on the
right, compared through `ComparisonOperator.compare`. -/
def timeEvaluate (ts1 ts2 : Int) (operator : String) (threshold : Int)
    (unit : String) : Except String Bool := do
  let threshold_seconds ← toSeconds threshold unit
  let delta_seconds := ts1 - ts2
  compare (Val.num (delta_seconds : Rat)) operator (Val.num (threshold_seconds : Rat))

/-! ## Literal and reference parsing, reference resolution
(`condition_evaluator/parsers.py`, `condition_evaluator/resolvers.py`) -/

/-- Model of Python `float()` restricted to plain decimal notation
`[sign]digits.digits` (the only shape conditions use). -/
def parseFloatQ (v : String) : Option Rat :=
  let cs := v.toList
  let core := if cs.head? == some '-' || cs.head? == some '+' then cs.drop 1 else cs
  let sign : Rat := if cs.head? == some '-' then -1 else 1
  match splitOnChar '.' core with
  | [ip, fp] =>
    if (ip.all Char.isDigit && fp.all Char.isDigit) && (!ip.isEmpty || !fp.isEmpty) then
      some (sign * ((charsToNat ip : Rat) + (charsToNat fp : Rat) / ((10 : Rat) ^ fp.length)))
    else Option.none
  | _ => Option.none

/-- `LiteralParser.parse`: quoted strings, booleans, null/none, ints,
floats, defaulting to a bare string. -/
def parseLiteral (value : String) : Val :=
  let v := strStrip value
  if (strStartsWith v "\x27" && strEndsWith v "\x27")
      || (strStartsWith v "\"" && strEndsWith v "\"") then
    .str (String.mk ((v.toList.drop 1).dropLast))
  else if strLower v == "true" then .bool true
  else if strLower v == "false" then .bool false
  else if strLower v == "null" || strLower v == "none" then .none
  else if v.toList.contains '.' then
    match parseFloatQ v with
    | some q => .num q
    | Option.none => .str v
  else
    match strToIntQ v with
    | some n => .num (n : Rat)
    | Option.none => .str v

/-- `ListParser.parse`: strip brackets, split on commas, parse each item
as a literal; a non-bracketed expression raises `ValueError`. -/
def parseListExpr (expr : String) : Except String (List Val) :=
  let e := strStrip expr
  if !(strStartsWith e "[" && strEndsWith e "]") then
    .error ("Invalid list syntax: " ++ e)
  else
    let content := strStrip (String.mk ((e.toList.drop 1).dropLast))
    if content == "" then .ok []
    else .ok ((strSplitOn ',' content).map (fun item => parseLiteral (strStrip item)))

/-- Errors raised during condition evaluation: `KeyError` for an entity
missing from the context, `ValueError` for syntax or operator problems. -/
inductive EvalErr where
  | keyError (entity : String)
  | valueError (msg : String)
deriving DecidableEq, Repr

/-- `ReferenceParser.parse`: split a dotted reference into entity name
and property path; fewer than two parts raises `ValueError`. -/
def referenceParse (expr : String) : Except EvalErr (String × List String) :=
  match strSplitOn '.' expr with
  | e :: p :: rest => .ok (e, p :: rest)
  | _ => .error (.valueError ("Invalid reference syntax: " ++ expr))

/-- One navigation step: dict entities use `.get(prop)` (missing key is
`None`), attribute entities use `getattr(obj, prop, None)`; `getattr`
with default on any other value also yields `None`. -/
def lookupProp (v : Val) (prop : String) : Val :=
  match v with
  | .dict kvs => ((kvs.lookup prop).getD Val.none)
  | .obj kvs => ((kvs.lookup prop).getD Val.none)
  | _ => Val.none

/-- `ReferenceResolver._navigate_properties`: walk the property path; a
`None` at the head of any step short-circuits to `None`. -/
def navigateProperties (obj : Val) (path : List String) : Val :=
  match path with
  | [] => obj
  | prop :: rest =>
    if obj.isNone then Val.none
    else navigateProperties (lookupProp obj prop) rest

/-- `ReferenceResolver.resolve`: parse the reference, raise `KeyError`
when the entity is absent from the context, otherwise navigate. -/
def resolveRef (ctx : List (String × Val)) (expr : String) : Except EvalErr Val :=
  match referenceParse expr with
  | .error e => .error e
  | .ok (entity_name, property_path) =>
    match ctx.lookup entity_name with
    | some obj => .ok (navigateProperties obj property_path)
    | Option.none => .error (.keyError entity_name)

/-- `ValueResolver.resolve`: bracketed lists are parsed as lists, a bare
name bound in the context resolves to its value, anything else is a
literal. -/
def resolveValue (ctx : List (String × Val)) (expr : String) : Except String Val :=
  let e := strStrip expr
  if strStartsWith e "[" && strEndsWith e "]" then
    (parseListExpr e).map Val.list
  else
    match ctx.lookup e with
    | some v => .ok v
    | Option.none => .ok (parseLiteral e)

/-- `ConditionEvaluator._evaluate_standard_comparison` after the pattern
match has produced the left reference, operator and right expression:
resolve both sides and compare. -/
def evalStandardComparison (ctx : List (String × Val))
    (leftExpr op rightExpr : String) : Except EvalErr Bool :=
  match resolveRef ctx leftExpr with
  | .error e => .error e
  | .ok left_value =>
    match resolveValue ctx rightExpr with
    | .error msg => .error (.valueError msg)
    | .ok right_value =>
      match compare left_value op right_value with
      | .error msg => .error (.valueError msg)
      | .ok b => .ok b

/-! ## Rule and badge catalog data (`loader/models.py`) -/

/-- A rule trigger: event name plus condition strings. -/
structure TriggerDef where
  event : String
  conditions : List String
deriving DecidableEq, Repr

/-- Side effects declared on penalty rules (`action_executor.py`
dispatches on which key the effect dict carries); the config payload is
kept abstract as a string. -/
inductive SideEffect where
  | update_alert (cfg : String)
  | update_remediation (cfg : String)
  | create_notification (cfg : String)
  | unrecognized (cfg : String)
deriving DecidableEq, Repr

/-- A point-awarding rule (the fields `process_event` reads). -/
structure PointRule where
  rule_id : String
  active : Bool
  trigger : TriggerDef
  points : Int
  recipient : String
deriving DecidableEq, Repr

/-- A penalty rule (the fields `process_event` reads). -/
structure PenaltyRule where
  rule_id : String
  active : Bool
  trigger : TriggerDef
  points : Int
  recipient : String
  side_effects : List SideEffect
deriving DecidableEq, Repr

/-- An exclusion rule: conditions live directly on the rule. -/
structure ExclusionRule where
  rule_id : String
  active : Bool
  conditions : List String
deriving DecidableEq, Repr

/-- Badge criteria: the scope type (`individual` / `team`); the
aggregate conditions themselves are abstracted by the evaluation
function passed to the badge evaluator. -/
structure BadgeCriteria where
  type : String
deriving DecidableEq, Repr

/-- A badge rule. -/
structure BadgeRule where
  badge_id : String
  active : Bool
  criteria : BadgeCriteria
deriving DecidableEq, Repr

/-! ## Badge evaluator (`badge_evaluator.py`) -/

/-- An award record (`BadgeEvaluator.award_badge`; uuid and timestamp
omitted). -/
structure Award where
  badge_id : String
  user_id : String
  team_id : Option String
deriving DecidableEq, Repr

/-- Intermediate result of a badge evaluation pass: the awards returned
as newly granted, the badge ids whose criteria were actually evaluated,
and the final state of the awards collection. -/
structure BadgeEvalResult where
  newly_awarded : List Award
  evaluated : List String
  awards_db : List (String × String)
deriving DecidableEq, Repr

/-- `BadgeEvaluator.evaluate_user_badges` over an explicit awards
collection (the `db.awards` lookup keyed on `(badge_id, user_id)`):
non-individual badges are skipped, already-awarded badges are skipped
before any criteria evaluation, otherwise the abstract criteria check
`meets` runs and a matching badge is awarded and recorded. -/
def evaluateUserBadges (meets : BadgeRule → Bool) (user_id : String)
    (team_id : Option String) :
    List BadgeRule → List (String × String) → BadgeEvalResult
  | [], awards => ⟨[], [], awards⟩
  | badge :: rest, awards =>
    if badge.criteria.type ≠ "individual" then
      evaluateUserBadges meets user_id team_id rest awards
    else if awards.contains (badge.badge_id, user_id) then
      evaluateUserBadges meets user_id team_id rest awards
    else if meets badge then
      let award : Award := ⟨badge.badge_id, user_id, team_id⟩
      let r := evaluateUserBadges meets user_id team_id rest
        ((badge.badge_id, user_id) :: awards)
      ⟨award :: r.newly_awarded, badge.badge_id :: r.evaluated, r.awards_db⟩
    else
      let r := evaluateUserBadges meets user_id team_id rest awards
      ⟨r.newly_awarded, badge.badge_id :: r.evaluated, r.awards_db⟩

/-! ## Side-effect executor (`action_executor.py`) -/

/-- Result entry appended for one executed side effect. -/
structure EffectResult where
  type : String
  result : String
deriving DecidableEq, Repr

/-- `ActionExecutor.execute_side_effects`: iterate the declared effects
in order, dispatch each to its handler (`runEffect` abstracts the
awaited database handler, which may raise), append each result;
effects carrying none of the three known keys are skipped.  The loop
body has no exception handling, so a raising handler aborts the loop
and propagates.  The first component records which effects were
actually dispatched. -/
def executeSideEffects (runEffect : SideEffect → Except String EffectResult) :
    List SideEffect → List SideEffect × Except String (List EffectResult)
  | [] => ([], .ok [])
  | effect :: rest =>
    match effect with
    | .unrecognized _ => executeSideEffects runEffect rest
    | _ =>
      match runEffect effect with
      | .error msg => ([effect], .error msg)
      | .ok r =>
        let (dispatched, results) := executeSideEffects runEffect rest
        (effect :: dispatched, results.map (fun rs => r :: rs))

/-! ## Rule loader cache (`loader/loader.py`) -/

/-- A validated rules document (the fields the loader caches). -/
structure RulesDoc where
  point_rules : List PointRule
  penalty_rules : List PenaltyRule
  exclusion_rules : List ExclusionRule
  badge_rules : List BadgeRule
deriving DecidableEq, Repr

/-- An entry of the loader's by-id cache. -/
inductive CacheEntry where
  | point (r : PointRule)
  | penalty (r : PenaltyRule)
  | exclusion (r : ExclusionRule)
  | badge (b : BadgeRule)
deriving DecidableEq, Repr

/-- Python dict assignment `m[k] = v`: overwrite an existing binding,
otherwise append. -/
def dictInsert (m : List (String × CacheEntry)) (k : String) (v : CacheEntry) :
    List (String × CacheEntry) :=
  if m.any (fun kv => kv.1 == k) then
    m.map (fun kv => if kv.1 == k then (k, v) else kv)
  else m ++ [(k, v)]

/-- `RuleLoader._build_cache`: index point, penalty and exclusion rules
by `rule_id`, then badges by `badge_id`, into the existing cache dict. -/
def buildCache (doc : RulesDoc) (cache : List (String × CacheEntry)) :
    List (String × CacheEntry) :=
  let c1 := doc.point_rules.foldl (fun m r => dictInsert m r.rule_id (.point r)) cache
  let c2 := doc.penalty_rules.foldl (fun m r => dictInsert m r.rule_id (.penalty r)) c1
  let c3 := doc.exclusion_rules.foldl (fun m r => dictInsert m r.rule_id (.exclusion r)) c2
  doc.badge_rules.foldl (fun m b => dictInsert m b.badge_id (.badge b)) c3

/-- Mutable state of a `RuleLoader` instance. -/
structure RuleLoaderState where
  rules_doc : Option RulesDoc
  rules_cache : List (String × CacheEntry)
  loaded : Bool
deriving DecidableEq, Repr

/-- `RuleLoader.__init__`: nothing loaded yet. -/
def RuleLoaderState.init : RuleLoaderState := ⟨Option.none, [], false⟩

/-- `RuleLoader.load`: the outcome of reading and validating the rules
file is modelled by `src` (an error models `FileNotFoundError` or a
validation failure, both of which propagate before any state is
mutated); on success the document is stored, the cache is built on top
of the current cache dict, and the loaded flag is set. -/
def loadState (src : Except String RulesDoc) (s : RuleLoaderState) :
    Except String RuleLoaderState :=
  match src with
  | .error e => .error e
  | .ok doc => .ok ⟨some doc, buildCache doc s.rules_cache, true⟩

/-- `RuleLoader.reload`: clear the loaded flag and the cache dict, then
call `load`; a load failure leaves those mutations in place and
propagates the error (returned here as the second component). -/
def reloadState (src : Except String RulesDoc) (s : RuleLoaderState) :
    RuleLoaderState × Option String :=
  let s1 : RuleLoaderState := { s with loaded := false, rules_cache := [] }
  match loadState src s1 with
  | .ok s2 => (s2, Option.none)
  | .error e => (s1, some e)

/-- `RuleLoader.get_rule_by_id`: `_ensure_loaded` raises `RuntimeError`
when the loader is not loaded, otherwise look the id up in the cache. -/
def getRuleById (s : RuleLoaderState) (rule_id : String) :
    Except String (Option CacheEntry) :=
  if !s.loaded then .error "Rules not loaded. Call load() first."
  else .ok (s.rules_cache.lookup rule_id)

/-! ## Rule engine orchestrator (`engine.py`) -/

/-- The full rule catalog held by the loader. -/
structure RuleCatalog where
  point_rules : List PointRule
  penalty_rules : List PenaltyRule
  exclusion_rules : List ExclusionRule
  badge_rules : List BadgeRule
deriving DecidableEq, Repr

/-- A rule returned by `get_rules_by_event` (point rules first, then
penalty rules). -/
inductive EventRule where
  | point (r : PointRule)
  | penalty (r : PenaltyRule)
deriving DecidableEq, Repr

/-- `RuleLoader.get_rules_by_event`: active point rules whose trigger
event matches, followed by active penalty rules whose trigger event
matches, in catalog order. -/
def getRulesByEvent (cat : RuleCatalog) (event : String) : List EventRule :=
  (cat.point_rules.filter (fun r => r.active && r.trigger.event == event)).map .point
    ++ (cat.penalty_rules.filter (fun r => r.active && r.trigger.event == event)).map .penalty

/-- The summary dict returned by `execute_point_award` /
`execute_penalty`. -/
structure Txn where
  user_id : String
  points : Int
  rule_id : String
deriving DecidableEq, Repr

/-- Return shape of `RuleEngine.process_event`; exclusions are recorded
by their reason string (the attached timestamp is not modelled). -/
structure ProcessResults where
  event_name : String
  rules_evaluated : Nat
  rules_triggered : Nat
  points_awarded : List Txn
  penalties_applied : List Txn
  badges_awarded : List Award
  exclusions : List String
deriving DecidableEq, Repr

/-- The engine's collaborators for one `process_event` call, with the
event context fixed: condition evaluation over the context
(`ConditionEvaluator.evaluate`, assumed non-raising here), recipient
resolution (`_resolve_recipient`), the summed-ledger level lookup
(`_get_user_level`), badge evaluation per user
(`BadgeEvaluator.evaluate_user_badges`) and the side-effect database
handlers. -/
structure EngineEnv where
  evalCond : String → Bool
  resolveRecipient : String → Option String
  userLevel : String → Nat
  badgesFor : String → List Award
  runEffect : SideEffect → Except String EffectResult

/-- `ConditionEvaluator.evaluate_all` with the `AND` operator: an empty
condition list is vacuously true. -/
def evalAllAnd (evalCond : String → Bool) (conditions : List String) : Bool :=
  conditions.all evalCond

/-- `RuleEngine._should_exclude`: any active exclusion rule whose
condition set fully matches the context excludes the event. -/
def shouldExclude (env : EngineEnv) (cat : RuleCatalog) : Bool :=
  (cat.exclusion_rules.filter (fun r => r.active)).any
    (fun rule => evalAllAnd env.evalCond rule.conditions)

/-- `RuleEngine._evaluate_and_execute_rule` (with `_execute_point_rule`
and `_execute_penalty_rule` inlined): evaluate the trigger conditions;
when met, resolve the recipient and append the transaction.  The
returned flag is `some triggered` on normal return and `Option.none`
when a penalty side effect raised (the exception escapes after the
penalty was recorded and is caught by the caller's per-rule handler). -/
def evalAndExecuteRule (env : EngineEnv) (pc : PointCalculator)
    (rule : EventRule) (results : ProcessResults) :
    ProcessResults × Option Bool :=
  match rule with
  | .point r =>
    if !evalAllAnd env.evalCond r.trigger.conditions then (results, some false)
    else
      match env.resolveRecipient r.recipient with
      | Option.none => (results, some true)
      | some user_id =>
        let user_level := env.userLevel user_id
        let final_points := pc.calculateFromRule r.points user_level 0
        ({ results with
            points_awarded := results.points_awarded ++ [⟨user_id, final_points, r.rule_id⟩] },
          some true)
  | .penalty r =>
    if !evalAllAnd env.evalCond r.trigger.conditions then (results, some false)
    else
      match env.resolveRecipient r.recipient with
      | Option.none => (results, some true)
      | some user_id =>
        let results1 := { results with
          penalties_applied := results.penalties_applied ++ [⟨user_id, r.points, r.rule_id⟩] }
        match (executeSideEffects env.runEffect r.side_effects).2 with
        | .error _ => (results1, Option.none)
        | .ok _ => (results1, some true)

/-- Phase 3 of `process_event`: evaluate each applicable rule inside a
per-rule exception guard, counting the ones that triggered. -/
def processRules (env : EngineEnv) (pc : PointCalculator) :
    List EventRule → ProcessResults → ProcessResults
  | [], results => results
  | rule :: rest, results =>
    let (results1, triggered) := evalAndExecuteRule env pc rule results
    let results2 :=
      match triggered with
      | some true => { results1 with rules_triggered := results1.rules_triggered + 1 }
      | _ => results1
    processRules env pc rest results2

/-- Collect distinct user ids preserving first occurrence (model of the
Python `set` built from award and penalty user ids). -/
def dedupUsers (ids : List String) : List String :=
  ids.foldl (fun acc u => if acc.contains u then acc else acc ++ [u]) []

/-- `RuleEngine.process_event`: exclusion check, rule selection by
event, per-rule evaluate+execute, then a badge pass over the affected
users when any points or penalties were recorded. -/
def processEvent (env : EngineEnv) (cat : RuleCatalog) (pc : PointCalculator)
    (event_name : String) : ProcessResults :=
  let results : ProcessResults := ⟨event_name, 0, 0, [], [], [], []⟩
  if shouldExclude env cat then
    { results with exclusions := ["Event excluded by exclusion rules"] }
  else
    let applicable_rules := getRulesByEvent cat event_name
    let results1 := processRules env pc applicable_rules
      { results with rules_evaluated := applicable_rules.length }
    if !results1.points_awarded.isEmpty || !results1.penalties_applied.isEmpty then
      let user_ids := dedupUsers
        (results1.points_awarded.map (fun t => t.user_id)
          ++ results1.penalties_applied.map (fun t => t.user_id))
      { results1 with
        badges_awarded := results1.badges_awarded ++ user_ids.flatMap env.badgesFor }
    else results1

/-! ## Concrete instances used in counterexamples -/

/-- A side-effect handler environment whose alert update raises a
persistence error while the other handlers succeed. -/
def failingAlertRun : SideEffect → Except String EffectResult
  | .update_alert _ => .error "PersistenceError: update_one failed"
  | .update_remediation _ => .ok ⟨"update_remediation", "ok"⟩
  | .create_notification _ => .ok ⟨"create_notification", "ok"⟩
  | .unrecognized _ => .ok ⟨"unrecognized", "ok"⟩

/-- A one-rule catalog document for exercising the loader. -/
def exampleDoc : RulesDoc :=
  ⟨[], [], [⟨"EXC-001", true, ["Alert.status == \x27muted\x27"]⟩], []⟩

/-- The loader state after a successful `load()` of `exampleDoc`. -/
def exampleLoadedState : RuleLoaderState :=
  ⟨some exampleDoc, buildCache exampleDoc [], true⟩

/-! ## Theorems -/

/-- Helper: with a `None` operand, `compare` always lands in
`_compare_with_none` with the normalised operator. -/
theorem compare_none_eq (l r : Val) (op : String) (h : (l.isNone || r.isNone) = true) :
    compare l op r = .ok (compareWithNone l (strUpper (strStrip op)) r) := by
  unfold compare
  rw [h]
  rfl

/-- C4: with a `None` operand, `compare` returns the equality result for
`==` and `!=` and `False` (no exception) for every other operator. -/
theorem compare_none_operand (left right : Val)
    (h : (left.isNone || right.isNone) = true) :
    compare left "==" right = .ok (pyEq left right) ∧
    compare left "!=" right = .ok (!pyEq left right) ∧
    ∀ op ∈ (["<", ">", "<=", ">=", "IN", "NOT IN"] : List String),
      compare left op right = .ok false := by
  refine ⟨?_, ?_, ?_⟩
  · rw [compare_none_eq left right "==" h]; rfl
  · rw [compare_none_eq left right "!=" h]; rfl
  · intro op hop
    fin_cases hop <;> rw [compare_none_eq left right _ h] <;> rfl

/-- Witness for C4 at concrete `None` operands. -/
theorem compare_none_operand_witness :
    compare Val.none "<" (Val.num 5) = .ok false ∧
    compare (Val.num 3) "!=" Val.none = .ok true := by
  constructor
  · exact (compare_none_operand Val.none (Val.num 5) rfl).2.2 "<" (by simp)
  · have h := (compare_none_operand (Val.num 3) Val.none rfl).2.1
    simpa using h

/-- C2: `calculate` is round(base·multiplier + bonus − penalty), clamped
up to `min_points` exactly when negatives are disallowed; base 100 with
the level-3 multiplier 1.1 yields 110. -/
theorem calculate_spec :
    (∀ (c : PointCalculator) (base bonus penalty : Int) (mult : Rat),
        c.calculate base mult bonus penalty =
          if c.allow_negative then
            pyRound ((base : Rat) * mult + (bonus : Rat) - (penalty : Rat))
          else
            max c.min_points (pyRound ((base : Rat) * mult + (bonus : Rat) - (penalty : Rat)))) ∧
    PointCalculator.calculateFromRule ⟨0, true⟩ 100 3 0 = 110 := by
  constructor
  · intro c base bonus penalty mult
    rcases c with ⟨m, an⟩
    simp only [PointCalculator.calculate]
    cases an
    · norm_num
      split_ifs with h <;> omega
    · norm_num
  · simp only [PointCalculator.calculateFromRule, PointCalculator.calculate,
      getLevelMultiplier, pyRound]
    norm_num

/-- C8: every total of at least 10000 maps to level 5 and every negative
total is clamped to level 1. -/
theorem calculateUserLevel_spec :
    (∀ total_points : Int, 10000 ≤ total_points → calculateUserLevel total_points = 5) ∧
    (∀ total_points : Int, total_points < 0 → calculateUserLevel total_points = 1) := by
  constructor <;> intro p h <;> unfold calculateUserLevel <;> split_ifs <;> omega

/-- Witness for C8 at 10000 and at a negative total. -/
theorem calculateUserLevel_spec_witness :
    calculateUserLevel 10000 = 5 ∧ calculateUserLevel (-7) = 1 :=
  ⟨calculateUserLevel_spec.1 10000 (by norm_num),
   calculateUserLevel_spec.2 (-7) (by norm_num)⟩

/-- C7: a temporal condition compares the duration in seconds against
the threshold converted through the unit table; at `T+6h` versus `T`,
`< 24 hours` holds, and at `T+30h` it does not. -/
theorem timeEvaluate_spec :
    (∀ n : Int,
        (toSeconds n "second" = .ok (n * 1) ∧ toSeconds n "seconds" = .ok (n * 1)) ∧
        (toSeconds n "minute" = .ok (n * 60) ∧ toSeconds n "minutes" = .ok (n * 60)) ∧
        (toSeconds n "hour" = .ok (n * 3600) ∧ toSeconds n "hours" = .ok (n * 3600)) ∧
        (toSeconds n "day" = .ok (n * 86400) ∧ toSeconds n "days" = .ok (n * 86400))) ∧
    (∀ (ts1 ts2 : Int) (op : String) (n : Int) (unit : String) (k : Int),
        unitToSecondsTable (normalizeUnit unit) = some k →
        timeEvaluate ts1 ts2 op n unit =
          compare (Val.num ((ts1 - ts2 : Int) : Rat)) op (Val.num ((n * k : Int) : Rat))) ∧
    (∀ t : Int, timeEvaluate (t + 21600) t "<" 24 "hours" = .ok true) ∧
    (∀ t : Int, timeEvaluate (t + 108000) t "<" 24 "hours" = .ok false) := by
  refine ⟨?_, ?_, ?_, ?_⟩
  · intro n
    exact ⟨⟨rfl, rfl⟩, ⟨rfl, rfl⟩, ⟨rfl, rfl⟩, ⟨rfl, rfl⟩⟩
  · intro ts1 ts2 op n unit k h
    unfold timeEvaluate toSeconds
    rw [h]
    rfl
  · intro t
    have h : t + 21600 - t = (21600 : Int) := by omega
    unfold timeEvaluate toSeconds
    rw [h]
    rfl
  · intro t
    have h : t + 108000 - t = (108000 : Int) := by omega
    unfold timeEvaluate toSeconds
    rw [h]
    rfl

/-- Witness for C7: the unit-table equation at concrete arguments and
the two concrete duration checks. -/
theorem timeEvaluate_spec_witness :
    timeEvaluate 21600 0 "<" 24 "hours" =
      compare (Val.num ((21600 - 0 : Int) : Rat)) "<" (Val.num ((24 * 3600 : Int) : Rat)) ∧
    timeEvaluate 21600 0 "<" 24 "hours" = .ok true ∧
    timeEvaluate 108000 0 "<" 24 "hours" = .ok false := by
  refine ⟨timeEvaluate_spec.2.1 21600 0 "<" 24 "hours" 3600 (by rfl), ?_, ?_⟩
  · have h := timeEvaluate_spec.2.2.1 0
    simpa using h
  · have h := timeEvaluate_spec.2.2.2 0
    simpa using h

/-- C5 (code bug): `execute_side_effects` has no per-effect exception
handling — when the first effect's handler raises, the loop aborts,
the error propagates, the remaining effect is never dispatched and no
error list is collected, contrary to the specified best-effort fan-out. -/
theorem executeSideEffects_failure_aborts :
    executeSideEffects failingAlertRun
        [SideEffect.update_alert "ALERT-1", SideEffect.create_notification "N-1"] =
      ([SideEffect.update_alert "ALERT-1"],
        .error "PersistenceError: update_one failed") := by
  rfl

/-- C6 counterexample: after a failed `reload()` the previously loaded
catalog is not queryable — the loaded flag and cache were cleared before
loading, so `get_rule_by_id` raises `RuntimeError` instead of serving
the old rule. -/
theorem reload_failure_not_atomic :
    getRuleById exampleLoadedState "EXC-001" =
      .ok (some (.exclusion ⟨"EXC-001", true, ["Alert.status == \x27muted\x27"]⟩)) ∧
    (reloadState (.error "Rules file not found") exampleLoadedState).1.loaded = false ∧
    getRuleById (reloadState (.error "Rules file not found") exampleLoadedState).1 "EXC-001" =
      .error "Rules not loaded. Call load() first." := by
  refine ⟨rfl, rfl, rfl⟩

/-- C6 amended: `reload()` clears the loaded flag and the cache dict
before re-loading; on success queries see the catalog rebuilt from the
new document alone, while on failure the loader is left unloaded with
an empty cache and every catalog query raises the not-loaded
`RuntimeError` — the previous catalog is not preserved. -/
theorem reload_spec :
    (∀ (s : RuleLoaderState) (doc : RulesDoc),
        reloadState (.ok doc) s = (⟨some doc, buildCache doc [], true⟩, Option.none)) ∧
    (∀ (s : RuleLoaderState) (e : String),
        reloadState (.error e) s = ({ s with loaded := false, rules_cache := [] }, some e)) ∧
    (∀ (s : RuleLoaderState) (e rule_id : String),
        getRuleById (reloadState (.error e) s).1 rule_id =
          .error "Rules not loaded. Call load() first.") := by
  refine ⟨fun s doc => rfl, fun s e => rfl, fun s e rid => rfl⟩

/-- C3: a `(user, badge)` pair already present in the awards collection
is skipped before any criteria evaluation — the badge id never appears
in the evaluated trace and no newly-awarded entry carries it. -/
theorem evaluateUserBadges_no_reaward
    (meets : BadgeRule → Bool) (user_id : String) (team_id : Option String)
    (rules : List BadgeRule) (awards : List (String × String)) (bid : String)
    (h : (bid, user_id) ∈ awards) :
    bid ∉ (evaluateUserBadges meets user_id team_id rules awards).evaluated ∧
    ∀ a ∈ (evaluateUserBadges meets user_id team_id rules awards).newly_awarded,
      a.badge_id ≠ bid := by
  induction rules generalizing awards with
  | nil =>
    simp [evaluateUserBadges]
  | cons b rest ih =>
    simp only [evaluateUserBadges]
    split_ifs with h1 h2 h3
    · exact ih awards h
    · exact ih awards h
    · have hne : b.badge_id ≠ bid := by
        intro heq
        apply h2
        rw [heq]
        exact List.elem_iff.mpr h
      have hrec := ih ((b.badge_id, user_id) :: awards) (List.mem_cons_of_mem _ h)
      refine ⟨?_, ?_⟩
      · intro hmem
        rcases List.mem_cons.mp hmem with heq | hmem2
        · exact hne heq.symm
        · exact hrec.1 hmem2
      · intro a ha
        rcases List.mem_cons.mp ha with heq | ha2
        · rw [heq]
          exact hne
        · exact hrec.2 a ha2
    · have hne : b.badge_id ≠ bid := by
        intro heq
        apply h2
        rw [heq]
        exact List.elem_iff.mpr h
      have hrec := ih awards h
      refine ⟨?_, ?_⟩
      · intro hmem
        rcases List.mem_cons.mp hmem with heq | hmem2
        · exact hne heq.symm
        · exact hrec.1 hmem2
      · exact hrec.2

/-- Witness for C3: a held badge is neither re-evaluated nor re-granted
on a concrete second pass. -/
theorem evaluateUserBadges_no_reaward_witness :
    "B1" ∉ (evaluateUserBadges (fun _ => true) "u1" Option.none
      [⟨"B1", true, ⟨"individual"⟩⟩] [("B1", "u1")]).evaluated ∧
    ∀ a ∈ (evaluateUserBadges (fun _ => true) "u1" Option.none
      [⟨"B1", true, ⟨"individual"⟩⟩] [("B1", "u1")]).newly_awarded,
      a.badge_id ≠ "B1" :=
  evaluateUserBadges_no_reaward (fun _ => true) "u1" Option.none
    [⟨"B1", true, ⟨"individual"⟩⟩] [("B1", "u1")] "B1" (by simp)

/-- C1: when some active exclusion rule's condition set evaluates true,
`process_event` short-circuits — zero rules evaluated, zero triggered,
exactly one exclusion entry, and no points, penalties or badges. -/
theorem processEvent_excluded
    (env : EngineEnv) (cat : RuleCatalog) (pc : PointCalculator)
    (event_name : String) (r : ExclusionRule)
    (hmem : r ∈ cat.exclusion_rules) (hact : r.active = true)
    (hcond : evalAllAnd env.evalCond r.conditions = true) :
    (processEvent env cat pc event_name).rules_evaluated = 0 ∧
    (processEvent env cat pc event_name).rules_triggered = 0 ∧
    (processEvent env cat pc event_name).exclusions.length = 1 ∧
    (processEvent env cat pc event_name).points_awarded = [] ∧
    (processEvent env cat pc event_name).penalties_applied = [] ∧
    (processEvent env cat pc event_name).badges_awarded = [] := by
  have hex : shouldExclude env cat = true := by
    unfold shouldExclude
    rw [List.any_eq_true]
    exact ⟨r, List.mem_filter.mpr ⟨hmem, hact⟩, hcond⟩
  unfold processEvent
  rw [hex]
  simp

/-- Witness for C1: a concrete excluded event. -/
theorem processEvent_excluded_witness :
    (processEvent ⟨fun _ => true, fun _ => Option.none, fun _ => 1, fun _ => [],
        fun _ => .ok ⟨"", ""⟩⟩
      ⟨[], [], [⟨"EXC-001", true, []⟩], []⟩ ⟨0, true⟩ "rescan_completed").rules_evaluated = 0 ∧
    (processEvent ⟨fun _ => true, fun _ => Option.none, fun _ => 1, fun _ => [],
        fun _ => .ok ⟨"", ""⟩⟩
      ⟨[], [], [⟨"EXC-001", true, []⟩], []⟩ ⟨0, true⟩ "rescan_completed").rules_triggered = 0 ∧
    (processEvent ⟨fun _ => true, fun _ => Option.none, fun _ => 1, fun _ => [],
        fun _ => .ok ⟨"", ""⟩⟩
      ⟨[], [], [⟨"EXC-001", true, []⟩], []⟩ ⟨0, true⟩ "rescan_completed").exclusions.length = 1 ∧
    (processEvent ⟨fun _ => true, fun _ => Option.none, fun _ => 1, fun _ => [],
        fun _ => .ok ⟨"", ""⟩⟩
      ⟨[], [], [⟨"EXC-001", true, []⟩], []⟩ ⟨0, true⟩ "rescan_completed").points_awarded = [] ∧
    (processEvent ⟨fun _ => true, fun _ => Option.none, fun _ => 1, fun _ => [],
        fun _ => .ok ⟨"", ""⟩⟩
      ⟨[], [], [⟨"EXC-001", true, []⟩], []⟩ ⟨0, true⟩ "rescan_completed").penalties_applied = [] ∧
    (processEvent ⟨fun _ => true, fun _ => Option.none, fun _ => 1, fun _ => [],
        fun _ => .ok ⟨"", ""⟩⟩
      ⟨[], [], [⟨"EXC-001", true, []⟩], []⟩ ⟨0, true⟩ "rescan_completed").badges_awarded = [] :=
  processEvent_excluded _ _ _ _ ⟨"EXC-001", true, []⟩ (by simp) rfl rfl

/-- Helper: navigating a `None` object yields `None` for any path. -/
theorem navigateProperties_none (path : List String) :
    navigateProperties Val.none path = Val.none := by
  cases path <;> rfl

/-- Helper: navigation decomposes over path concatenation. -/
theorem navigateProperties_append (v : Val) (pre post : List String) :
    navigateProperties v (pre ++ post) =
      navigateProperties (navigateProperties v pre) post := by
  induction pre generalizing v with
  | nil => rfl
  | cons p ps ih =>
    simp only [List.cons_append, navigateProperties]
    by_cases hv : v.isNone = true
    · rw [if_pos hv, if_pos hv, navigateProperties_none]
    · rw [if_neg hv, if_neg hv]
      exact ih _

/-- C9: a left-hand reference to an entity absent from the context makes
both resolution and the whole comparison raise `KeyError`; with the
entity present, resolution never raises but returns the navigation
result, and when the path hits a missing or `None` intermediate node the
result is `None` and the comparison proceeds under the `None`-operand
rules; a `None` node short-circuits the rest of the path, and a missing
key yields `None` on both mapping-style and attribute-style entities. -/
theorem resolveRef_spec :
    (∀ (ctx : List (String × Val)) (expr entity prop : String) (rest : List String)
        (op rightExpr : String),
        strSplitOn (Char.ofNat 46) expr = entity :: prop :: rest →
        ctx.lookup entity = Option.none →
        resolveRef ctx expr = .error (.keyError entity) ∧
        evalStandardComparison ctx expr op rightExpr = .error (.keyError entity)) ∧
    (∀ (ctx : List (String × Val)) (expr entity prop : String) (rest : List String)
        (v : Val),
        strSplitOn (Char.ofNat 46) expr = entity :: prop :: rest →
        ctx.lookup entity = some v →
        resolveRef ctx expr = .ok (navigateProperties v (prop :: rest)) ∧
        ∀ (op rightExpr : String) (rv : Val),
          navigateProperties v (prop :: rest) = Val.none →
          resolveValue ctx rightExpr = .ok rv →
          evalStandardComparison ctx expr op rightExpr =
            .ok (compareWithNone Val.none (strUpper (strStrip op)) rv)) ∧
    (∀ (v : Val) (pre post : List String),
        navigateProperties v pre = Val.none →
        navigateProperties v (pre ++ post) = Val.none) ∧
    (∀ (kvs : List (String × Val)) (prop : String),
        kvs.lookup prop = Option.none →
        lookupProp (Val.dict kvs) prop = Val.none ∧
        lookupProp (Val.obj kvs) prop = Val.none) := by
  refine ⟨?_, ?_, ?_, ?_⟩
  · intro ctx expr entity prop rest op rightExpr hsplit hlook
    have hres : resolveRef ctx expr = .error (.keyError entity) := by
      simp only [resolveRef, referenceParse, hsplit, hlook]
    refine ⟨hres, ?_⟩
    simp only [evalStandardComparison, hres]
  · intro ctx expr entity prop rest v hsplit hlook
    have hres : resolveRef ctx expr = .ok (navigateProperties v (prop :: rest)) := by
      simp only [resolveRef, referenceParse, hsplit, hlook]
    refine ⟨hres, ?_⟩
    intro op rightExpr rv hnav hrv
    simp only [evalStandardComparison, hres, hnav, hrv]
    rw [compare_none_eq Val.none rv op rfl]
  · intro v pre post h
    rw [navigateProperties_append, h, navigateProperties_none]
  · intro kvs prop h
    constructor <;> simp [lookupProp, h]

/-- Witness for C9 on a concrete context with a mapping-style entity
holding a `None` field, an absent entity, and an attribute-style
entity. -/
theorem resolveRef_spec_witness :
    (resolveRef [("Alert", Val.dict [("user", Val.none)])] "Missing.field" =
        .error (.keyError "Missing") ∧
      evalStandardComparison [("Alert", Val.dict [("user", Val.none)])]
        "Missing.field" "==" "\x275\x27" = .error (.keyError "Missing")) ∧
    (resolveRef [("Alert", Val.dict [("user", Val.none)])] "Alert.user.name" =
        .ok (navigateProperties (Val.dict [("user", Val.none)]) ["user", "name"]) ∧
      evalStandardComparison [("Alert", Val.dict [("user", Val.none)])]
        "Alert.user.name" "<" "\x27x\x27" =
        .ok (compareWithNone Val.none (strUpper (strStrip "<")) (Val.str "x"))) ∧
    navigateProperties (Val.obj [("user", Val.none)]) (["user"] ++ ["name"]) = Val.none ∧
    (lookupProp (Val.dict [("a", Val.num 1)]) "b" = Val.none ∧
      lookupProp (Val.obj [("a", Val.num 1)]) "b" = Val.none) := by
  refine ⟨?_, ⟨?_, ?_⟩, ?_, ?_⟩
  · exact resolveRef_spec.1 [("Alert", Val.dict [("user", Val.none)])]
      "Missing.field" "Missing" "field" [] "==" "\x275\x27" rfl rfl
  · exact (resolveRef_spec.2.1 [("Alert", Val.dict [("user", Val.none)])]
      "Alert.user.name" "Alert" "user" ["name"] (Val.dict [("user", Val.none)]) rfl rfl).1
  · exact (resolveRef_spec.2.1 [("Alert", Val.dict [("user", Val.none)])]
      "Alert.user.name" "Alert" "user" ["name"] (Val.dict [("user", Val.none)]) rfl rfl).2
      "<" "\x27x\x27" (Val.str "x") rfl rfl
  · exact resolveRef_spec.2.2.1 (Val.obj [("user", Val.none)]) ["user"] ["name"] rfl
  · exact resolveRef_spec.2.2.2 [("a", Val.num 1)] "b" rfl

/-- Helper: rounding a nonnegative rational is nonnegative. -/
theorem pyRound_nonneg (x : Rat) (hx : 0 ≤ x) : 0 ≤ pyRound x := by
  simp only [pyRound]
  have h0 : (0 : Int) ≤ ⌊x⌋ := Int.floor_nonneg.mpr hx
  split_ifs <;> omega

/-- Helper: `pyRound x` never exceeds `x + 1/2`. -/
theorem pyRound_le_add_half (x : Rat) : (pyRound x : Rat) ≤ x + 1/2 := by
  simp only [pyRound]
  have h1 : ((⌊x⌋ : Int) : Rat) ≤ x := Int.floor_le x
  split_ifs with hd hd2 hf <;> push_cast <;> linarith

/-- Helper: the rounded tier percentage of `a` out of `b` slots lies in
`[0, 100)` when `0 ≤ a ≤ b - 1` and `0 < b < 20000`. -/
theorem round2_bounds (a b : Int) (ha : 0 ≤ a) (hab : a ≤ b - 1) (hb : 0 < b)
    (hb2 : b < 20000) :
    0 ≤ round2 ((a : Rat) / (b : Rat) * 100) ∧
    round2 ((a : Rat) / (b : Rat) * 100) < 100 := by
  have hbQ : (0 : Rat) < (b : Rat) := by exact_mod_cast hb
  have haQ : (0 : Rat) ≤ (a : Rat) := by exact_mod_cast ha
  constructor
  · unfold round2
    have h1 : (0 : Int) ≤ pyRound ((a : Rat) / (b : Rat) * 100 * 100) :=
      pyRound_nonneg _ (by positivity)
    have h2 : (0 : Rat) ≤ (pyRound ((a : Rat) / (b : Rat) * 100 * 100) : Rat) := by
      exact_mod_cast h1
    exact div_nonneg h2 (by norm_num)
  · unfold round2
    have habQ : (a : Rat) ≤ (b : Rat) - 1 := by
      exact_mod_cast hab
    have hy : (a : Rat) / (b : Rat) * 100 * 100 ≤ 10000 - 10000 / (b : Rat) := by
      have key : (a : Rat) / (b : Rat) * 100 * 100 = (a : Rat) * 10000 / (b : Rat) := by
        ring
      rw [key, div_le_iff₀ hbQ]
      have expand : (10000 - 10000 / (b : Rat)) * (b : Rat) =
          10000 * (b : Rat) - 10000 := by
        field_simp
      rw [expand]
      linarith
    have hhalf : (1 : Rat) / 2 < 10000 / (b : Rat) := by
      rw [div_lt_div_iff₀ (by norm_num) hbQ]
      have hb2Q : (b : Rat) < 20000 := by exact_mod_cast hb2
      linarith
    have h2 : (pyRound ((a : Rat) / (b : Rat) * 100 * 100) : Rat) < 10000 := by
      have h3 := pyRound_le_add_half ((a : Rat) / (b : Rat) * 100 * 100)
      linarith
    have h4 : pyRound ((a : Rat) / (b : Rat) * 100 * 100) ≤ 9999 := by
      have h5 : pyRound ((a : Rat) / (b : Rat) * 100 * 100) < 10000 := by
        exact_mod_cast h2
      omega
    have h6 : (pyRound ((a : Rat) / (b : Rat) * 100 * 100) : Rat) ≤ 9999 := by
      exact_mod_cast h4
    calc (pyRound ((a : Rat) / (b : Rat) * 100 * 100) : Rat) / 100 ≤ 9999 / 100 := by
          linarith
      _ < 100 := by norm_num

/-- Helper: the claimed invariants hold of a non-maximum-level progress
record whose percentage is a rounded in-tier fraction. -/
theorem progress_conclusion (l : Nat) (hl5 : l ≠ 5) (nl : Option Nat) (pn : Int)
    (hpn : 0 < pn) (a b : Int) (ha : 0 ≤ a) (hab : a ≤ b - 1) (hb : 0 < b)
    (hb2 : b < 20000) (r : LevelProgress)
    (hr : r = ⟨l, nl, pn, round2 ((a : Rat) / (b : Rat) * 100)⟩) :
    0 ≤ r.points_needed ∧ 0 ≤ r.progress_percentage ∧
    r.progress_percentage ≤ 100 ∧
    (r.points_needed = 0 ↔ r.current_level = 5) ∧
    (r.progress_percentage = 100 ↔ r.current_level = 5) := by
  obtain ⟨hb0, hb1⟩ := round2_bounds a b ha hab hb hb2
  subst hr
  refine ⟨by dsimp only; omega, hb0, le_of_lt hb1, ?_, ?_⟩
  · dsimp only
    constructor
    · intro h
      omega
    · intro h
      exact absurd h hl5
  · dsimp only
    constructor
    · intro h
      exact absurd h (ne_of_lt hb1)
    · intro h
      exact absurd h hl5

/-- C10: for every nonnegative points total, progress reports a
nonnegative distance to the next level and a percentage within
`[0, 100]`, and the saturated values (0 needed, 100%) occur exactly at
the maximum level 5. -/
theorem calculateProgressToNextLevel_spec (p : Int) (hp : 0 ≤ p) :
    0 ≤ (calculateProgressToNextLevel p).points_needed ∧
    0 ≤ (calculateProgressToNextLevel p).progress_percentage ∧
    (calculateProgressToNextLevel p).progress_percentage ≤ 100 ∧
    ((calculateProgressToNextLevel p).points_needed = 0 ↔
      (calculateProgressToNextLevel p).current_level = 5) ∧
    ((calculateProgressToNextLevel p).progress_percentage = 100 ↔
      (calculateProgressToNextLevel p).current_level = 5) := by
  rcases lt_or_le p 500 with h1 | h1
  · have hl : calculateUserLevel p = 1 := by
      unfold calculateUserLevel
      rw [if_pos h1]
    refine progress_conclusion 1 (by norm_num) (some 2) (500 - p) (by omega)
      (p - 0) (499 - 0 + 1) (by omega) (by omega) (by omega) (by omega) _ ?_
    unfold calculateProgressToNextLevel
    rw [hl]
    rfl
  rcases lt_or_le p 1500 with h2 | h2
  · have hl : calculateUserLevel p = 2 := by
      unfold calculateUserLevel
      rw [if_neg (by omega), if_pos h2]
    refine progress_conclusion 2 (by norm_num) (some 3) (1500 - p) (by omega)
      (p - 500) (1499 - 500 + 1) (by omega) (by omega) (by omega) (by omega) _ ?_
    unfold calculateProgressToNextLevel
    rw [hl]
    rfl
  rcases lt_or_le p 4000 with h3 | h3
  · have hl : calculateUserLevel p = 3 := by
      unfold calculateUserLevel
      rw [if_neg (by omega), if_neg (by omega), if_pos h3]
    refine progress_conclusion 3 (by norm_num) (some 4) (4000 - p) (by omega)
      (p - 1500) (3999 - 1500 + 1) (by omega) (by omega) (by omega) (by omega) _ ?_
    unfold calculateProgressToNextLevel
    rw [hl]
    rfl
  rcases lt_or_le p 10000 with h4 | h4
  · have hl : calculateUserLevel p = 4 := by
      unfold calculateUserLevel
      rw [if_neg (by omega), if_neg (by omega), if_neg (by omega), if_pos h4]
    refine progress_conclusion 4 (by norm_num) (some 5) (10000 - p) (by omega)
      (p - 4000) (9999 - 4000 + 1) (by omega) (by omega) (by omega) (by omega) _ ?_
    unfold calculateProgressToNextLevel
    rw [hl]
    rfl
  · have hl : calculateUserLevel p = 5 := by
      unfold calculateUserLevel
      rw [if_neg (by omega), if_neg (by omega), if_neg (by omega), if_neg (by omega)]
    have hres : calculateProgressToNextLevel p = ⟨5, Option.none, 0, 100⟩ := by
      unfold calculateProgressToNextLevel
      rw [hl]
      rfl
    rw [hres]
    refine ⟨le_refl 0, by norm_num, by norm_num, by simp, by simp⟩

/-- Witness for C10 at a concrete mid-tier total. -/
theorem calculateProgressToNextLevel_spec_witness :
    0 ≤ (calculateProgressToNextLevel 700).points_needed ∧
    0 ≤ (calculateProgressToNextLevel 700).progress_percentage ∧
    (calculateProgressToNextLevel 700).progress_percentage ≤ 100 ∧
    ((calculateProgressToNextLevel 700).points_needed = 0 ↔
      (calculateProgressToNextLevel 700).current_level = 5) ∧
    ((calculateProgressToNextLevel 700).progress_percentage = 100 ↔
      (calculateProgressToNextLevel 700).current_level = 5) :=
  calculateProgressToNextLevel_spec 700 (by norm_num)

end SecuBot
